import Mathlib

set_option maxRecDepth 4000

namespace PgMcp

/-!
Shallow embedding of the pg-mcp query service core.

Code embedded from the repository sources:
* `src/pg_mcp/services/result_validator.py` (`ResultValidator.validate`)
* `src/pg_mcp/services/sql_generator.py` (`SQLGenerator.generate`, `_extract_sql`)

The orchestrator, `SQLValidator`, and circuit breaker are referenced by the
repository's tests but their source files are not part of the tree; those
components are modelled from the specification (see the doc comments marked
`Modelled from the spec:` below).

External library calls (`json.loads`, the Gemini SDK, the PostgreSQL grammar
parser) are treated as inputs to the embedded functions: the embedding starts
at the point where the repository's own code inspects their results.
-/

/-! ### String helpers (Python `str` operations over `List Char`) -/

/-- Python's `\s` character class restricted to ASCII (the inputs the service
handles are ASCII SQL); matches `str.strip` / regex `\s` behaviour there. -/
def isPySpace (c : Char) : Bool :=
  c == ' ' || c == '\t' || c == '\n' || c == '\r' || c == '\x0b' || c == '\x0c'

/-- Does `hay` start with `needle` (first argument is the needle)? -/
def listStartsWith : List Char → List Char → Bool
  | [], _ => true
  | _ :: _, [] => false
  | a :: as, b :: bs => a == b && listStartsWith as bs

/-- Does `hay` contain `needle` as a contiguous substring? -/
def listContains (needle : List Char) : List Char → Bool
  | [] => listStartsWith needle []
  | c :: t => listStartsWith needle (c :: t) || listContains needle t

/-- Substring containment on `String`, as Python's `in` operator. -/
def strContains (hay needle : String) : Bool :=
  listContains needle.toList hay.toList

/-- Python `str.lower()` (ASCII). -/
def lowerStr (s : String) : String :=
  (s.toList.map Char.toLower).asString

/-- Python `str.strip()` with no argument: trim leading/trailing whitespace. -/
def stripList (l : List Char) : List Char :=
  ((l.dropWhile isPySpace).reverse.dropWhile isPySpace).reverse

/-- Python `str.rstrip(";")`: drop every trailing semicolon. -/
def rstripSemis (l : List Char) : List Char :=
  (l.reverse.dropWhile (· == ';')).reverse

/-! ### Result validator (`ResultValidator.validate`, result_validator.py)

The embedding starts after the Gemini call returned text content: the input is
the outcome of `json.loads(content)` (`Except` error text on
`json.JSONDecodeError`).  Python values decoded from JSON are modelled by
`PyJson`; non-finite floats (`NaN`, `Infinity`) are outside the model (they are
not standard JSON).  Floats carry their rational value. -/

inductive PyJson where
  | pyNone
  | pyBool (b : Bool)
  | pyInt (n : Int)
  | pyFloat (q : ℚ)
  | pyStr (s : String)
  | pyList (xs : List PyJson)
  | pyDict (entries : List (String × PyJson))

/-- Lookup in a decoded JSON object.  `json.loads` keeps the last occurrence of
a duplicated key, so lookup is over the reversed entry list. -/
def dictGet (entries : List (String × PyJson)) (k : String) : Option PyJson :=
  entries.reverse.lookup k

/-- Python `int(q)` on a float: truncation toward zero. -/
def ratTrunc (q : ℚ) : Int :=
  if q < 0 then -(Int.floor (-q)) else Int.floor q

/-- Lines 160-167 of result_validator.py: the confidence coercion applied to
the value found under `"confidence"`.  In CPython `bool` is a subclass of
`int`, so `isinstance(confidence, int)` holds for JSON booleans and
`0 <= True <= 100` holds; booleans therefore pass through unchanged (value
1 or 0). -/
def coerceConfidence : PyJson → Int
  | .pyInt n => if 0 ≤ n ∧ n ≤ 100 then n else max 0 (min 100 n)
  | .pyBool b => if b then 1 else 0
  | .pyFloat q => max 0 (min 100 (ratTrunc q))
  | _ => 50

/-- Line 157 of result_validator.py: `result_dict.get("confidence", 50)`
followed by the coercion block. -/
def extractConfidence (d : List (String × PyJson)) : Int :=
  match dictGet d "confidence" with
  | none => 50
  | some v => coerceConfidence v

/-- The record built by `ResultValidator.validate`.  `explanation` and
`suggestion` keep the dynamic Python value taken from the JSON response
(`suggestion` is `None`, i.e. `pyNone`, when the key is absent). -/
structure ResultValidationResult where
  confidence : Int
  explanation : PyJson
  suggestion : PyJson
  acceptable : Bool

/-- The failures `validate` raises in its JSON-handling section (an
`AttributeError` on non-dict JSON is re-raised as `LLMError`). -/
inductive LLMFailure where
  | llmError (msg : String)
deriving DecidableEq

/-- Lines 99-177 of result_validator.py, from the point where the Gemini
response text has been obtained.  `parsed` is the outcome of
`json.loads(content)`: `Except.error e` when a `json.JSONDecodeError` with
text `e` was raised.  Non-dict JSON makes `result_dict.get` raise
`AttributeError`, which the final `except Exception` handler converts to
`LLMError`. -/
def resultValidatorValidate (enabled : Bool) (threshold : Int)
    (parsed : Except String PyJson) : Except LLMFailure ResultValidationResult :=
  if enabled = false then
    .ok ⟨100, .pyStr "Validation is disabled in configuration", .pyNone, true⟩
  else
    match parsed with
    | .error e =>
        .ok ⟨60, .pyStr ("Validation response parsing failed: " ++ e),
             .pyStr "Unable to parse LLM response, manual verification recommended",
             false⟩
    | .ok (.pyDict d) =>
        let confidence := extractConfidence d
        let explanation := (dictGet d "explanation").getD (.pyStr "No explanation provided")
        let suggestion := (dictGet d "suggestion").getD .pyNone
        .ok ⟨confidence, explanation, suggestion, decide (threshold ≤ confidence)⟩
    | .ok _ =>
        .error (.llmError "Result validation failed: AttributeError")

/-- JSON values that are neither Python numbers nor booleans. -/
def nonNumericNonBool : PyJson → Bool
  | .pyNone | .pyStr _ | .pyList _ | .pyDict _ => true
  | _ => false

/-- The acceptance invariant claimed for `ResultValidator.validate` outcomes:
whenever a result is produced, `is_acceptable == (confidence ≥ threshold)`. -/
def acceptInvariant (threshold : Int)
    (res : Except LLMFailure ResultValidationResult) : Prop :=
  ∀ r, res = .ok r → (r.acceptable = true ↔ threshold ≤ r.confidence)

/-! ### SQL generator (`SQLGenerator._extract_sql` and `generate`, sql_generator.py)

`_extract_sql` applies two Python regexes and a bare-prefix check.  The regex
semantics (leftmost match, greedy/lazy preference, `re.IGNORECASE`,
`re.DOTALL`) are embedded as explicit scanning functions over `List Char`:

* Pattern 1 matches fenced code blocks with an optional (case-insensitive)
  `sql` tag.  After the opening backticks and optional tag, `\s*` greedily
  eats whitespace (newlines included, so the following `\n?` is always empty),
  and the lazy group stops at the first closing backticks, a single preceding
  newline being eaten by the trailing `\n?`.  Backtracking of the greedy parts
  can never turn a failure into a success here (the closing fence contains no
  whitespace characters), so a single forward scan is faithful.
* Pattern 2 matches a `WITH`/`SELECT` keyword followed by at least one
  whitespace character, lazily extended up to a semicolon or the `$` anchor
  (end of input, or just before one trailing newline).
-/

/-- Case-insensitive (ASCII) prefix test; first argument is the needle. -/
def listStartsWithCI : List Char → List Char → Bool
  | [], _ => true
  | _ :: _, [] => false
  | a :: as, b :: bs => a.toLower == b.toLower && listStartsWithCI as bs

/-- The lazy group of pattern 1: shortest prefix whose remainder starts with
the closing fence, an immediately preceding single newline being consumed by
the trailing greedy `\n?`.  `none` when no closing fence follows. -/
def lazyGroup1 : List Char → Option (List Char)
  | [] => none
  | c :: t =>
    if listStartsWith ['\n', '`', '`', '`'] (c :: t) ||
       listStartsWith ['`', '`', '`'] (c :: t) then some []
    else (lazyGroup1 t).map (c :: ·)

/-- Attempt pattern 1 at the current position: opening backticks, optional
case-insensitive `sql` tag, greedy `\s*`, then the lazy group. -/
def tryBlockAt (l : List Char) : Option (List Char) :=
  if listStartsWith ['`', '`', '`'] l then
    let rest := l.drop 3
    let withTag :=
      if listStartsWithCI ['s', 'q', 'l'] rest then
        lazyGroup1 ((rest.drop 3).dropWhile isPySpace)
      else none
    match withTag with
    | some g => some g
    | none => lazyGroup1 (rest.dropWhile isPySpace)
  else none

/-- Leftmost match of pattern 1 (`re.findall(...)[0]`): scan positions left to
right. -/
def findBlock : List Char → Option (List Char)
  | [] => none
  | c :: t =>
    match tryBlockAt (c :: t) with
    | some g => some g
    | none => findBlock t

/-- The lazy tail of pattern 2: everything up to (excluding) the first
semicolon, the end of input, or a single trailing newline (`$` without
`re.MULTILINE` also matches just before a final newline). -/
def lazyGroup2 : List Char → List Char
  | [] => []
  | c :: t =>
    if c == ';' then []
    else if c == '\n' && t.isEmpty then []
    else c :: lazyGroup2 t

/-- Attempt pattern 2 at the current position: `WITH` or `SELECT`
(case-insensitive, `WITH` alternative first) followed by at least one
whitespace character, then the lazy tail; the captured group spans from the
keyword to the terminator. -/
def trySelectAt (l : List Char) : Option (List Char) :=
  let kwLen : Option Nat :=
    if listStartsWithCI ['w', 'i', 't', 'h'] l then some 4
    else if listStartsWithCI ['s', 'e', 'l', 'e', 'c', 't'] l then some 6
    else none
  match kwLen with
  | none => none
  | some k =>
    let rest := l.drop k
    let ws := rest.takeWhile isPySpace
    if ws.isEmpty then none
    else some (l.take k ++ ws ++ lazyGroup2 (rest.drop ws.length))

/-- Leftmost match of pattern 2. -/
def findSelect : List Char → Option (List Char)
  | [] => none
  | c :: t =>
    match trySelectAt (c :: t) with
    | some g => some g
    | none => findSelect t

/-- The strategy cascade of `_extract_sql` applied to the stripped content:
fenced code block, then bare `WITH`/`SELECT` match, then an upper-cased
prefix check on the whole content. -/
def extractFromStripped (c : List Char) : Option (List Char) :=
  match findBlock c with
  | some g => some (rstripSemis (stripList g) ++ [';'])
  | none =>
    match findSelect c with
    | some g => some (rstripSemis (stripList g) ++ [';'])
    | none =>
      if listStartsWith ['S', 'E', 'L', 'E', 'C', 'T'] (c.map Char.toUpper) ||
         listStartsWith ['W', 'I', 'T', 'H'] (c.map Char.toUpper) then
        some (rstripSemis c ++ [';'])
      else none

/-- Lines 156-205 of sql_generator.py: `SQLGenerator._extract_sql`. -/
def extractSql (content : List Char) : Option (List Char) :=
  if content.isEmpty then none
  else extractFromStripped (stripList content)

/-- Errors raised by `SQLGenerator.generate` after the LLM call succeeded. -/
inductive GenFailure where
  | llmError (msg : String)

/-- Lines 139-154 of sql_generator.py: the tail of `SQLGenerator.generate`,
starting from the response content (`response.text`).  `if not response.text`
guards empty content; `if not sql` is true for `None` and for the empty
string. -/
def generateFromContent (content : List Char) : Except GenFailure (List Char) :=
  if content.isEmpty then .error (.llmError "Gemini returned empty response")
  else
    match extractSql content with
    | none => .error (.llmError "Failed to extract SQL from Gemini response")
    | some s =>
      if s.isEmpty then .error (.llmError "Failed to extract SQL from Gemini response")
      else .ok s

/-- A list ends in exactly one `';'`: its last element is `';'` and the
element before it (if any) is not. -/
def endsInOneSemicolon (s : List Char) : Prop :=
  s.getLast? = some ';' ∧ s.dropLast.getLast? ≠ some ';'

/-! ### SQLValidator (spec §4.2)

The file `src/pg_mcp/services/sql_validator.py` is not part of the source
tree (only its tests are), so the validator is modelled from the spec in two
layers: a lexical statement gate (top-level statement counting, spec §4.2
"more than one top-level statement → SecurityViolationError with message
containing \"multiple\"; empty, whitespace-only, or comment-only input →
SQLParseError"), and a parse-tree walk over an abstract PostgreSQL parse tree
(spec §4.2 "walk the entire parse tree ... compare case-insensitively").
-/

/-- The two validator error classes (`SecurityViolationError`,
`SQLParseError`). -/
inductive SqlValError where
  | securityViolation (msg : String)
  | parseError (msg : String)

/-- Lexer modes while scanning for top-level statement boundaries:
single-quoted strings (with `''` handled as close-and-reopen), double-quoted
identifiers, `--` line comments and nestable `/* */` block comments hide
semicolons. -/
inductive ScanMode where
  | normal
  | inSingle
  | inDouble
  | lineComment
  | blockComment (depth : Nat)

/-- Modelled from the spec: the statement-splitting part of the missing
`SQLValidator` (spec §4.2).  Counts top-level statements separated by `;`,
ignoring a statement that holds no content outside comments and whitespace. -/
def countStmtsAux : ScanMode → Bool → Nat → List Char → Nat
  | _, h, n, [] => if h then n + 1 else n
  | .normal, h, n, '-' :: '-' :: t => countStmtsAux .lineComment h n t
  | .normal, h, n, '/' :: '*' :: t => countStmtsAux (.blockComment 0) h n t
  | .normal, h, n, c :: t =>
    if c = ';' then countStmtsAux .normal false (if h then n + 1 else n) t
    else if c = '\'' then countStmtsAux .inSingle true n t
    else if c = '"' then countStmtsAux .inDouble true n t
    else countStmtsAux .normal (h || !isPySpace c) n t
  | .inSingle, _, n, c :: t =>
    if c = '\'' then countStmtsAux .normal true n t
    else countStmtsAux .inSingle true n t
  | .inDouble, _, n, c :: t =>
    if c = '"' then countStmtsAux .normal true n t
    else countStmtsAux .inDouble true n t
  | .lineComment, h, n, c :: t =>
    if c = '\n' then countStmtsAux .normal h n t
    else countStmtsAux .lineComment h n t
  | .blockComment d, h, n, '*' :: '/' :: t =>
    countStmtsAux (match d with | 0 => .normal | d' + 1 => .blockComment d') h n t
  | .blockComment d, h, n, '/' :: '*' :: t => countStmtsAux (.blockComment (d + 1)) h n t
  | .blockComment d, h, n, _ :: t => countStmtsAux (.blockComment d) h n t

/-- Number of top-level statements in a SQL text. -/
def countStatements (sql : String) : Nat :=
  countStmtsAux .normal false 0 sql.toList

/-- Modelled from the spec: the up-front gate of the missing
`SQLValidator.validate_or_raise` (spec §4.2): empty/comment-only input is a
parse error, more than one top-level statement is a security violation whose
message contains "multiple". -/
def validateStatementCount (sql : String) : Option SqlValError :=
  match countStatements sql with
  | 0 => some (.parseError "SQL is empty or contains only comments")
  | 1 => none
  | _ => some (.securityViolation "multiple statements are not allowed")

/-- Modelled from the spec: an abstract PostgreSQL parse tree as walked by the
missing `SQLValidator` (spec §4.2).  Identifier references can occur at any
nesting depth; sibling order inside a statement is represented with binary
`seq` nodes, and `subquery` marks a nested SELECT (CTE, derived table, JOIN
arm). -/
inductive SqlAst where
  | emptyNode
  | tableRef (name : String)
  | columnRef (qualifier : Option String) (name : String)
  | funcCall (name : String) (arg : SqlAst)
  | subquery (child : SqlAst)
  | seq (a b : SqlAst)

/-- Per-database deny-lists of the validator (`blocked_tables`,
`blocked_columns`, and the `SecurityConfig` dangerous-function list). -/
structure ValidatorPolicy where
  blockedTables : List String
  blockedColumns : List String
  dangerousFunctions : List String

/-- Modelled from the spec: the parse-tree walk of the missing `SQLValidator`
(spec §4.2).  Every table / column / function identifier is compared
case-insensitively against the deny-lists; the first match is a
`SecurityViolationError` whose message contains the lowercase identifier. -/
def checkNode (pol : ValidatorPolicy) : SqlAst → Option SqlValError
  | .emptyNode => none
  | .tableRef n =>
    if (pol.blockedTables.map lowerStr).contains (lowerStr n) then
      some (.securityViolation ("Access to blocked table " ++ lowerStr n ++ " is not allowed"))
    else none
  | .columnRef _ n =>
    if (pol.blockedColumns.map lowerStr).contains (lowerStr n) then
      some (.securityViolation ("Access to blocked column " ++ lowerStr n ++ " is not allowed"))
    else none
  | .funcCall n arg =>
    if (pol.dangerousFunctions.map lowerStr).contains (lowerStr n) then
      some (.securityViolation ("Use of dangerous function " ++ lowerStr n ++ " is not allowed"))
    else checkNode pol arg
  | .subquery c => checkNode pol c
  | .seq a b =>
    match checkNode pol a with
    | some e => some e
    | none => checkNode pol b

/-- Rename every identifier in a parse tree. -/
def mapIdents (f : String → String) : SqlAst → SqlAst
  | .emptyNode => .emptyNode
  | .tableRef n => .tableRef (f n)
  | .columnRef q n => .columnRef (q.map f) (f n)
  | .funcCall n arg => .funcCall (f n) (mapIdents f arg)
  | .subquery c => .subquery (mapIdents f c)
  | .seq a b => .seq (mapIdents f a) (mapIdents f b)

/-- Does the tree reference a table whose name case-folds to `n`'s? -/
def mentionsTable (n : String) : SqlAst → Bool
  | .tableRef m => lowerStr m == lowerStr n
  | .funcCall _ arg => mentionsTable n arg
  | .subquery c => mentionsTable n c
  | .seq a b => mentionsTable n a || mentionsTable n b
  | _ => false

/-- Does the tree reference a column whose name case-folds to `n`'s? -/
def mentionsColumn (n : String) : SqlAst → Bool
  | .columnRef _ m => lowerStr m == lowerStr n
  | .funcCall _ arg => mentionsColumn n arg
  | .subquery c => mentionsColumn n c
  | .seq a b => mentionsColumn n a || mentionsColumn n b
  | _ => false

/-! ### Circuit breaker and query orchestrator (spec §4.1, §4.3)

The files `src/pg_mcp/services/orchestrator.py` and
`src/pg_mcp/resilience/circuit_breaker.py` are not part of the source tree
(only their tests are); both are modelled from the spec.  Port calls are
modelled by an environment `PortEnv` giving each call's outcome; wall time is
one rational timestamp per `execute_query` call; side effects are recorded as
an event trace. -/

inductive CircuitState where
  | closed
  | opened
  | halfOpen
deriving DecidableEq

structure CircuitBreaker where
  state : CircuitState
  failureCount : Nat
  openedAt : ℚ

structure OrchResilienceConfig where
  maxRetries : Nat
  retryDelay : ℚ
  backoffFactor : ℚ
  circuitBreakerThreshold : Nat
  circuitBreakerTimeout : ℚ
  validationEnabled : Bool

/-- Modelled from the spec: `CircuitBreaker.allow` (spec §4.3). OPEN lazily
becomes HALF_OPEN when the recovery timeout has elapsed. -/
def cbAllow (cfg : OrchResilienceConfig) (now : ℚ) (b : CircuitBreaker) :
    Bool × CircuitBreaker :=
  match b.state with
  | .closed => (true, b)
  | .opened =>
    if cfg.circuitBreakerTimeout ≤ now - b.openedAt then
      (true, { b with state := .halfOpen })
    else (false, b)
  | .halfOpen => (true, b)

/-- Modelled from the spec: `CircuitBreaker.record_success` (spec §4.3).
Success closes the breaker and resets the consecutive-failure count. -/
def cbRecordSuccess (b : CircuitBreaker) : CircuitBreaker :=
  { state := .closed, failureCount := 0, openedAt := b.openedAt }

/-- Modelled from the spec: `CircuitBreaker.record_failure` (spec §4.3).
CLOSED trips to OPEN when the consecutive count reaches the threshold;
HALF_OPEN reopens and resets the timer. -/
def cbRecordFailure (cfg : OrchResilienceConfig) (now : ℚ) (b : CircuitBreaker) :
    CircuitBreaker :=
  match b.state with
  | .closed =>
    if cfg.circuitBreakerThreshold ≤ b.failureCount + 1 then
      ⟨.opened, b.failureCount + 1, now⟩
    else ⟨.closed, b.failureCount + 1, b.openedAt⟩
  | .halfOpen => ⟨.opened, b.failureCount + 1, now⟩
  | .opened => ⟨.opened, b.failureCount + 1, now⟩

inductive ErrorCode where
  | databaseNotFound
  | databaseRequired
  | schemaUnavailable
  | securityViolation
  | sqlParseError
  | llmError
  | circuitBreakerOpen
  | dbError
  | dbConnectionError
  | unknownError
deriving DecidableEq

structure ErrorInfo where
  code : ErrorCode
  message : String

inductive ReturnType where
  | sql
  | result
  | both
deriving DecidableEq

structure OrchQueryRequest where
  question : String
  database : Option String
  returnType : ReturnType

structure OrchQueryResponse where
  success : Bool
  generatedSql : Option String
  rowCount : Option Nat
  error : Option ErrorInfo
  attempts : Nat
  validationWarning : Option String

/-- Outcome of one `SQLGenerator.generate` port call. -/
inductive GenOutcome where
  | ok (sql : String)
  | failure (msg : String)

/-- Outcome of one `SQLExecutor.execute` port call. -/
inductive ExecOutcome where
  | ok (rowCount : Nat)
  | sqlError (msg : String)
  | connError (msg : String)

/-- Port behaviours visible to one `execute_query` call: the pool registry,
the schema cache, the generator's outcome per generate-call index, the
validator's verdict per SQL text, the executor's outcome per execute-call
index, and the result validator's outcome (an error is downgraded to a
warning). -/
structure PortEnv where
  pools : List String
  schema : String → Option Unit
  gen : Nat → GenOutcome
  validate : String → Option SqlValError
  exec : Nat → ExecOutcome
  resultValidate : Except String Unit

/-- Observable side effects of one `execute_query` call. -/
inductive Event where
  | genCall (prev feedback : Option String)
  | sleepFor (duration : ℚ)
  | execCall (sql : String)

def failResponse (e : ErrorInfo) (attempts : Nat) : OrchQueryResponse :=
  ⟨false, none, none, some e, attempts, none⟩

/-- Generate-call argument pairs (`previous_attempt`, `error_feedback`) of a
trace, in order. -/
def genCallsOf (tr : List Event) : List (Option String × Option String) :=
  tr.filterMap fun ev =>
    match ev with
    | .genCall p f => some (p, f)
    | _ => none

/-- Backoff sleep durations of a trace, in order. -/
def sleepsOf (tr : List Event) : List ℚ :=
  tr.filterMap fun ev =>
    match ev with
    | .sleepFor d => some d
    | _ => none

/-- Modelled from the spec: the generate → validate → execute retry loop of
the missing `QueryOrchestrator.execute_query` (spec §4.1 step 3 and §4.5).
`fuel` is the number of attempts still admitted (`max_retries + 1` at entry),
`genIdx`/`execIdx` count completed generator/executor calls, `prev`/`fb` carry
the previous attempt's SQL and error feedback.  Security/parse violations and
engine-level SQL errors are retryable after a backoff sleep of
`retry_delay · backoff_factor ^ genIdx`; LLM failures, connection errors and
an open breaker are fatal. -/
def retryLoop (cfg : OrchResilienceConfig) (env : PortEnv) (rt : ReturnType) (now : ℚ) :
    Nat → Nat → Nat → Option String → Option String → ErrorInfo → CircuitBreaker →
    OrchQueryResponse × CircuitBreaker × List Event
  | 0, genIdx, _, _, _, lastErr, b => (failResponse lastErr genIdx, b, [])
  | fuel + 1, genIdx, execIdx, prev, fb, _, b =>
    let allowed := cbAllow cfg now b
    if allowed.1 = false then
      (failResponse ⟨.circuitBreakerOpen, "circuit breaker is open - LLM calls are failing fast"⟩
        (genIdx + 1), allowed.2, [])
    else
      match env.gen genIdx with
      | .failure m =>
        (failResponse ⟨.llmError, m⟩ (genIdx + 1), cbRecordFailure cfg now allowed.2,
          [.genCall prev fb])
      | .ok sql =>
        let b2 := cbRecordSuccess allowed.2
        match env.validate sql with
        | some ve =>
          let e : ErrorInfo :=
            match ve with
            | .securityViolation m => ⟨.securityViolation, m⟩
            | .parseError m => ⟨.sqlParseError, m⟩
          if fuel = 0 then (failResponse e (genIdx + 1), b2, [.genCall prev fb])
          else
            let next := retryLoop cfg env rt now fuel (genIdx + 1) execIdx
              (some sql) (some e.message) e b2
            (next.1, next.2.1,
              .genCall prev fb :: .sleepFor (cfg.retryDelay * cfg.backoffFactor ^ genIdx) :: next.2.2)
        | none =>
          if rt = .sql then
            (⟨true, some sql, none, none, genIdx + 1, none⟩, b2, [.genCall prev fb])
          else
            match env.exec execIdx with
            | .ok nRows =>
              let warn :=
                if cfg.validationEnabled then
                  match env.resultValidate with
                  | .ok _ => none
                  | .error m => some m
                else none
              (⟨true, some sql, some nRows, none, genIdx + 1, warn⟩, b2,
                [.genCall prev fb, .execCall sql])
            | .sqlError m =>
              if fuel = 0 then
                (failResponse ⟨.dbError, m⟩ (genIdx + 1), b2, [.genCall prev fb, .execCall sql])
              else
                let next := retryLoop cfg env rt now fuel (genIdx + 1) (execIdx + 1)
                  (some sql) (some m) ⟨.dbError, m⟩ b2
                (next.1, next.2.1,
                  .genCall prev fb :: .execCall sql ::
                    .sleepFor (cfg.retryDelay * cfg.backoffFactor ^ genIdx) :: next.2.2)
            | .connError m =>
              (failResponse ⟨.dbConnectionError, m⟩ (genIdx + 1), b2,
                [.genCall prev fb, .execCall sql])

/-- Modelled from the spec: database resolution (spec §4.1 step 1). -/
def resolveDatabase (env : PortEnv) (req : OrchQueryRequest) : Except ErrorInfo String :=
  match req.database with
  | some name =>
    if env.pools.contains name then .ok name
    else .error ⟨.databaseNotFound, "database not found: " ++ name⟩
  | none =>
    match env.pools with
    | [n] => .ok n
    | _ => .error ⟨.databaseRequired,
        "multiple databases are configured - please specify which one to query"⟩

/-- Modelled from the spec: the missing `QueryOrchestrator.execute_query`
(spec §4.1): resolve the database, fetch the schema, then run the retry loop.
Every outcome is an `OrchQueryResponse`; nothing escapes. -/
def executeQuery (cfg : OrchResilienceConfig) (env : PortEnv) (req : OrchQueryRequest)
    (b : CircuitBreaker) (now : ℚ) : OrchQueryResponse × CircuitBreaker × List Event :=
  match resolveDatabase env req with
  | .error e => (failResponse e 1, b, [])
  | .ok db =>
    match env.schema db with
    | none => (failResponse ⟨.schemaUnavailable, "schema unavailable for " ++ db⟩ 1, b, [])
    | some _ =>
      retryLoop cfg env req.returnType now (cfg.maxRetries + 1) 0 0 none none
        ⟨.unknownError, "no attempt was executed"⟩ b

/-! ## Theorems -/

/-! ### Substring and lowercasing lemmas -/

theorem listStartsWith_append_self (n s : List Char) :
    listStartsWith n (n ++ s) = true := by
  induction n with
  | nil => rfl
  | cons a as ih => simp [listStartsWith, ih]

theorem listContains_of_startsWith (n : List Char) :
    ∀ l, listStartsWith n l = true → listContains n l = true
  | [], h => h
  | _ :: _, h => by simp [listContains, h]

theorem listContains_append (p n s : List Char) :
    listContains n (p ++ (n ++ s)) = true := by
  induction p with
  | nil =>
    exact listContains_of_startsWith n (n ++ s) (listStartsWith_append_self n s)
  | cons c t ih =>
    show listContains n (c :: (t ++ (n ++ s))) = true
    simp only [listContains, ih, Bool.or_true]

theorem strContains_append (p n s : String) :
    strContains (p ++ n ++ s) n = true := by
  have h : (p ++ n ++ s).toList = p.toList ++ (n.toList ++ s.toList) := by
    simp [String.toList, List.append_assoc]
  rw [strContains, h, listContains_append]

/-! ### SQL extraction (C9, C10) -/

theorem head_dropWhile_false (p : Char → Bool) :
    ∀ (l : List Char) (a : Char), (l.dropWhile p).head? = some a → p a = false
  | [], a, h => by simp [List.dropWhile] at h
  | c :: t, a, h => by
    rw [List.dropWhile_cons] at h
    split at h
    · exact head_dropWhile_false p t a h
    · simp only [List.head?_cons, Option.some.injEq] at h
      subst h
      simpa using ‹¬ p c = true›

theorem rstripSemis_getLast (l : List Char) :
    (rstripSemis l).getLast? ≠ some ';' := by
  unfold rstripSemis
  rw [List.getLast?_reverse]
  intro h
  have := head_dropWhile_false (· == ';') _ _ h
  simp at this

theorem endsInOneSemicolon_append (t : List Char) (ht : t.getLast? ≠ some ';') :
    endsInOneSemicolon (t ++ [';']) := by
  refine ⟨?_, ?_⟩
  · simp [List.getLast?_concat]
  · rw [List.dropLast_concat]
    exact ht

/-- C10: every successful extraction of `SQLGenerator._extract_sql` ends in
exactly one trailing semicolon (every branch strips all trailing semicolons
and appends a single one), contrary to `generate`'s docstring which says the
SQL is returned without one. -/
theorem C10_extract_sql_trailing_semicolon (content s : List Char)
    (h : extractSql content = some s) : endsInOneSemicolon s := by
  unfold extractSql at h
  split at h
  · simp at h
  · unfold extractFromStripped at h
    split at h
    · obtain rfl := Option.some.inj h
      exact endsInOneSemicolon_append _ (rstripSemis_getLast _)
    · split at h
      · obtain rfl := Option.some.inj h
        exact endsInOneSemicolon_append _ (rstripSemis_getLast _)
      · split at h
        · obtain rfl := Option.some.inj h
          exact endsInOneSemicolon_append _ (rstripSemis_getLast _)
        · simp at h

/-- Witness for C10 at a concrete input (a fenced block with a doubled
semicolon). -/
theorem C10_witness : endsInOneSemicolon "SELECT 1;".toList :=
  C10_extract_sql_trailing_semicolon "```sql\nSELECT 1;;\n```".toList _ (by decide)

/-- C9: `generate` extracts SQL by trying the fenced-block pattern (sql-tagged
or generic), then bare `SELECT`/`WITH` text; when no strategy extracts SQL
from non-empty content, it raises `LLMError`.  The concrete conjuncts exercise
each extraction strategy, and the strategy order (a fenced block wins over
bare `SELECT` text appearing elsewhere). -/
theorem C9_generate_extraction_error :
    (∀ content : List Char, content ≠ [] → extractSql content = none →
      generateFromContent content =
        .error (.llmError "Failed to extract SQL from Gemini response")) ∧
    extractSql "```sql\nSELECT 1;\n```".toList = some "SELECT 1;".toList ∧
    extractSql "```\nSELECT 2\n```".toList = some "SELECT 2;".toList ∧
    extractSql "Here is the query: SELECT * FROM users; hope it helps".toList =
      some "SELECT * FROM users;".toList ∧
    extractSql "Use this:\n```sql\nSELECT a FROM t\n```\nor SELECT b FROM u".toList =
      some "SELECT a FROM t;".toList := by
  refine ⟨?_, by decide, by decide, by decide, by decide⟩
  intro content hne hnone
  cases content with
  | nil => exact absurd rfl hne
  | cons c t => simp [generateFromContent, hnone]

/-- Witness for C9 at a concrete input with no extractable SQL. -/
theorem C9_witness :
    generateFromContent "How are you".toList =
      .error (.llmError "Failed to extract SQL from Gemini response") :=
  C9_generate_extraction_error.1 _ (by decide) (by decide)

/-! ### Result validator (C6, C7, C8) -/

theorem resultValidator_dict_eq (threshold : Int) (d : List (String × PyJson)) :
    resultValidatorValidate true threshold (.ok (.pyDict d)) =
      .ok ⟨extractConfidence d,
           (dictGet d "explanation").getD (.pyStr "No explanation provided"),
           (dictGet d "suggestion").getD .pyNone,
           decide (threshold ≤ extractConfidence d)⟩ := rfl

/-- C7: a Gemini validation response that is not parseable JSON does not
raise; `validate` returns a result with confidence 60 that is not
acceptable. -/
theorem C7_malformed_json_recoverable (threshold : Int) (e : String) :
    resultValidatorValidate true threshold (Except.error e) =
      Except.ok ⟨60, .pyStr ("Validation response parsing failed: " ++ e),
        .pyStr "Unable to parse LLM response, manual verification recommended",
        false⟩ := rfl

/-- C6 counterexample: with `confidence_threshold = 60`, the result built for
a malformed JSON response has confidence 60 ≥ 60 yet `is_acceptable = false`,
so the claimed invariant fails as stated. -/
theorem C6_counterexample :
    ¬ acceptInvariant 60 (resultValidatorValidate true 60 (Except.error "Expecting value")) := by
  intro hInv
  have h := hInv _ rfl
  simp at h

/-- C6 amended: `is_acceptable == (confidence ≥ threshold)` holds for every
result built from a successfully parsed JSON object; it holds for the
disabled-validation result whenever the threshold is at most 100; and it
holds for the malformed-JSON result (confidence 60, not acceptable) only when
the threshold exceeds 60. -/
theorem C6_accept_invariant_amended :
    (∀ (threshold : Int) (d : List (String × PyJson)),
      acceptInvariant threshold (resultValidatorValidate true threshold (.ok (.pyDict d)))) ∧
    (∀ (threshold : Int) (parsed : Except String PyJson), threshold ≤ 100 →
      acceptInvariant threshold (resultValidatorValidate false threshold parsed)) ∧
    (∀ (threshold : Int) (e : String), 60 < threshold →
      acceptInvariant threshold (resultValidatorValidate true threshold (Except.error e))) := by
  refine ⟨?_, ?_, ?_⟩
  · intro threshold d r h
    rw [resultValidator_dict_eq] at h
    obtain rfl := (Except.ok.inj h).symm
    simp
  · intro threshold parsed hth r h
    have hres : resultValidatorValidate false threshold parsed =
        .ok ⟨100, .pyStr "Validation is disabled in configuration", .pyNone, true⟩ := rfl
    rw [hres] at h
    obtain rfl := (Except.ok.inj h).symm
    simpa using hth
  · intro threshold e hth r h
    have hres : resultValidatorValidate true threshold (Except.error e) =
        .ok ⟨60, .pyStr ("Validation response parsing failed: " ++ e),
          .pyStr "Unable to parse LLM response, manual verification recommended",
          false⟩ := rfl
    rw [hres] at h
    obtain rfl := (Except.ok.inj h).symm
    simp
    omega

/-- Witness for C6's amended theorem at concrete thresholds and inputs. -/
theorem C6_witness :
    acceptInvariant 70 (resultValidatorValidate true 70
      (.ok (.pyDict [("confidence", .pyInt 85)]))) ∧
    ((70 : Int) ≤ 100 ∧
      acceptInvariant 70 (resultValidatorValidate false 70 (.ok .pyNone))) ∧
    ((60 : Int) < 70 ∧
      acceptInvariant 70 (resultValidatorValidate true 70 (Except.error "bad"))) :=
  ⟨C6_accept_invariant_amended.1 70 _,
   ⟨by norm_num, C6_accept_invariant_amended.2.1 70 _ (by norm_num)⟩,
   ⟨by norm_num, C6_accept_invariant_amended.2.2 70 "bad" (by norm_num)⟩⟩

/-- C8 counterexample: a JSON boolean under `"confidence"` is not a number,
yet the returned confidence is 1 (CPython's `isinstance(True, int)` is true
and `0 <= True <= 100` holds), not the claimed default 50. -/
theorem C8_counterexample :
    dictGet [("confidence", PyJson.pyBool true)] "confidence" = some (.pyBool true) ∧
    resultValidatorValidate true 70 (.ok (.pyDict [("confidence", .pyBool true)])) =
      .ok ⟨1, .pyStr "No explanation provided", .pyNone, false⟩ ∧
    (1 : Int) ≠ 50 :=
  ⟨rfl, rfl, by norm_num⟩

theorem coerceConfidence_bounds (v : PyJson) :
    0 ≤ coerceConfidence v ∧ coerceConfidence v ≤ 100 := by
  cases v with
  | pyInt n =>
    by_cases h : 0 ≤ n ∧ n ≤ 100
    · simp [coerceConfidence, h]
    · refine ⟨?_, ?_⟩ <;> simp only [coerceConfidence, if_neg h]
      · exact le_max_left 0 _
      · exact max_le (by norm_num) (min_le_left _ _)
  | pyBool b => cases b <;> simp [coerceConfidence]
  | pyFloat q =>
    refine ⟨?_, ?_⟩ <;> simp only [coerceConfidence]
    · exact le_max_left 0 _
    · exact max_le (by norm_num) (min_le_left _ _)
  | pyNone => simp [coerceConfidence]
  | pyStr s => simp [coerceConfidence]
  | pyList xs => simp [coerceConfidence]
  | pyDict d => simp [coerceConfidence]

/-- C8 amended: the confidence of a result built from a parsed JSON object
equals `extractConfidence` of that object, which defaults to 50 for an absent
key, clamps out-of-range integers, truncates-and-clamps floats, defaults
non-numeric non-boolean values to 50, keeps a JSON boolean as 1 or 0 (the
CPython `bool <: int` exception to the claimed default), and always lies in
[0, 100]. -/
theorem C8_confidence_amended :
    (∀ (threshold : Int) (d : List (String × PyJson)) (r : ResultValidationResult),
      resultValidatorValidate true threshold (.ok (.pyDict d)) = .ok r →
      r.confidence = extractConfidence d ∧ 0 ≤ r.confidence ∧ r.confidence ≤ 100) ∧
    (∀ d, dictGet d "confidence" = none → extractConfidence d = 50) ∧
    (∀ d (n : Int), dictGet d "confidence" = some (.pyInt n) → (n < 0 ∨ 100 < n) →
      extractConfidence d = max 0 (min 100 n)) ∧
    (∀ d v, dictGet d "confidence" = some v → nonNumericNonBool v = true →
      extractConfidence d = 50) ∧
    (∀ d (b : Bool), dictGet d "confidence" = some (.pyBool b) →
      extractConfidence d = if b then 1 else 0) := by
  refine ⟨?_, ?_, ?_, ?_, ?_⟩
  · intro threshold d r h
    rw [resultValidator_dict_eq] at h
    obtain rfl := (Except.ok.inj h).symm
    refine ⟨rfl, ?_⟩
    unfold extractConfidence
    split
    · norm_num
    · exact coerceConfidence_bounds _
  · intro d h
    simp [extractConfidence, h]
  · intro d n h hout
    have : ¬ (0 ≤ n ∧ n ≤ 100) := by omega
    simp [extractConfidence, h, coerceConfidence, this]
  · intro d v h hv
    cases v <;> simp_all [extractConfidence, coerceConfidence, nonNumericNonBool]
  · intro d b h
    simp [extractConfidence, h, coerceConfidence]

/-- Witness for C8's amended theorem at concrete JSON objects. -/
theorem C8_witness :
    ((⟨85, .pyStr "No explanation provided", .pyNone, true⟩ :
        ResultValidationResult).confidence =
          extractConfidence [("confidence", PyJson.pyInt 85)] ∧
      0 ≤ (⟨85, .pyStr "No explanation provided", .pyNone, true⟩ :
        ResultValidationResult).confidence ∧
      (⟨85, .pyStr "No explanation provided", .pyNone, true⟩ :
        ResultValidationResult).confidence ≤ 100) ∧
    extractConfidence [("other", .pyInt 3)] = 50 ∧
    extractConfidence [("confidence", .pyInt 120)] = max 0 (min 100 120) ∧
    extractConfidence [("confidence", .pyStr "high")] = 50 ∧
    extractConfidence [("confidence", .pyBool true)] = 1 :=
  ⟨C8_confidence_amended.1 70 _ _ rfl,
   C8_confidence_amended.2.1 _ rfl,
   C8_confidence_amended.2.2.1 _ 120 rfl (by norm_num),
   C8_confidence_amended.2.2.2.1 _ _ rfl rfl,
   C8_confidence_amended.2.2.2.2 _ true rfl⟩

/-! ### SQL validator (C2, C3) -/

/-- C2: more than one top-level statement makes `validate_or_raise` raise a
`SecurityViolationError` whose message contains the word "multiple".  The
concrete conjuncts are the repository's multi-statement injection inputs
(including the comment-truncation attack), which the statement splitter must
recognise as two statements. -/
theorem C2_multi_statement_rejected :
    (∀ sql : String, 1 < countStatements sql →
      validateStatementCount sql =
        some (.securityViolation "multiple statements are not allowed") ∧
      strContains "multiple statements are not allowed" "multiple" = true) ∧
    countStatements "SELECT 1; DELETE FROM users" = 2 ∧
    countStatements "SELECT 1; INSERT INTO logs VALUES(1)" = 2 ∧
    countStatements "SELECT 1; UPDATE users SET admin=true" = 2 ∧
    countStatements "SELECT 1; DROP TABLE users" = 2 ∧
    countStatements "SELECT * FROM users; DROP TABLE users;--" = 2 ∧
    countStatements "SELECT * FROM users" = 1 := by
  refine ⟨?_, by decide, by decide, by decide, by decide, by decide, by decide⟩
  intro sql h
  refine ⟨?_, by decide⟩
  unfold validateStatementCount
  cases hc : countStatements sql with
  | zero => omega
  | succ n =>
    cases n with
    | zero => omega
    | succ m => rfl

/-- Witness for C2 at the repository's first injection input. -/
theorem C2_witness :
    validateStatementCount "SELECT 1; DELETE FROM users" =
      some (.securityViolation "multiple statements are not allowed") ∧
    strContains "multiple statements are not allowed" "multiple" = true :=
  C2_multi_statement_rejected.1 _ (by decide)

/-- C3: the validator's identifier decision is invariant under ASCII case:
renaming identifiers without changing their case-folding leaves the verdict
unchanged; a tree referencing a blocked table or column (in any casing, at
any depth) is rejected; and the violation message contains the lowercase
identifier. -/
theorem C3_case_insensitive_blocking :
    (∀ (pol : ValidatorPolicy) (f : String → String) (ast : SqlAst),
      (∀ s, lowerStr (f s) = lowerStr s) →
      checkNode pol (mapIdents f ast) = checkNode pol ast) ∧
    (∀ (pol : ValidatorPolicy) (n : String) (ast : SqlAst),
      mentionsTable n ast = true →
      lowerStr n ∈ pol.blockedTables.map lowerStr →
      (checkNode pol ast).isSome = true) ∧
    (∀ (pol : ValidatorPolicy) (n : String) (ast : SqlAst),
      mentionsColumn n ast = true →
      lowerStr n ∈ pol.blockedColumns.map lowerStr →
      (checkNode pol ast).isSome = true) ∧
    (∀ (pol : ValidatorPolicy) (n : String),
      lowerStr n ∈ pol.blockedTables.map lowerStr →
      checkNode pol (.tableRef n) =
        some (.securityViolation
          ("Access to blocked table " ++ lowerStr n ++ " is not allowed")) ∧
      strContains ("Access to blocked table " ++ lowerStr n ++ " is not allowed")
        (lowerStr n) = true) ∧
    (∀ (pol : ValidatorPolicy) (q : Option String) (n : String),
      lowerStr n ∈ pol.blockedColumns.map lowerStr →
      checkNode pol (.columnRef q n) =
        some (.securityViolation
          ("Access to blocked column " ++ lowerStr n ++ " is not allowed")) ∧
      strContains ("Access to blocked column " ++ lowerStr n ++ " is not allowed")
        (lowerStr n) = true) := by
  refine ⟨?_, ?_, ?_, ?_, ?_⟩
  · intro pol f ast hf
    induction ast with
    | emptyNode => rfl
    | tableRef n => simp [mapIdents, checkNode, hf]
    | columnRef q n => simp [mapIdents, checkNode, hf]
    | funcCall n arg ih => simp [mapIdents, checkNode, hf, ih]
    | subquery c ih => simp [mapIdents, checkNode, ih]
    | seq a b iha ihb => simp [mapIdents, checkNode, iha, ihb]
  · intro pol n ast
    induction ast with
    | emptyNode => intro hm _; simp [mentionsTable] at hm
    | tableRef m =>
      intro hm hb
      have hmn : lowerStr m = lowerStr n := by simpa [mentionsTable] using hm
      have hc : (pol.blockedTables.map lowerStr).contains (lowerStr m) = true :=
        List.elem_eq_true_of_mem (by rw [hmn]; exact hb)
      rw [checkNode, if_pos hc]
      rfl
    | columnRef q m => intro hm _; simp [mentionsTable] at hm
    | funcCall m arg ih =>
      intro hm hb
      rw [mentionsTable] at hm
      rw [checkNode]
      split
      · rfl
      · exact ih hm hb
    | subquery c ih => intro hm hb; exact ih (by simpa [mentionsTable] using hm) hb
    | seq a b iha ihb =>
      intro hm hb
      rw [mentionsTable, Bool.or_eq_true] at hm
      rw [checkNode]
      rcases hca : checkNode pol a with _ | e
      · rcases hm with hm | hm
        · have := iha hm hb
          rw [hca] at this
          simp at this
        · exact ihb hm hb
      · rfl
  · intro pol n ast
    induction ast with
    | emptyNode => intro hm _; simp [mentionsColumn] at hm
    | tableRef m => intro hm _; simp [mentionsColumn] at hm
    | columnRef q m =>
      intro hm hb
      have hmn : lowerStr m = lowerStr n := by simpa [mentionsColumn] using hm
      have hc : (pol.blockedColumns.map lowerStr).contains (lowerStr m) = true :=
        List.elem_eq_true_of_mem (by rw [hmn]; exact hb)
      rw [checkNode, if_pos hc]
      rfl
    | funcCall m arg ih =>
      intro hm hb
      rw [mentionsColumn] at hm
      rw [checkNode]
      split
      · rfl
      · exact ih hm hb
    | subquery c ih => intro hm hb; exact ih (by simpa [mentionsColumn] using hm) hb
    | seq a b iha ihb =>
      intro hm hb
      rw [mentionsColumn, Bool.or_eq_true] at hm
      rw [checkNode]
      rcases hca : checkNode pol a with _ | e
      · rcases hm with hm | hm
        · have := iha hm hb
          rw [hca] at this
          simp at this
        · exact ihb hm hb
      · rfl
  · intro pol n hb
    have hc : (pol.blockedTables.map lowerStr).contains (lowerStr n) = true :=
      List.elem_eq_true_of_mem hb
    exact ⟨by rw [checkNode, if_pos hc], strContains_append _ _ _⟩
  · intro pol q n hb
    have hc : (pol.blockedColumns.map lowerStr).contains (lowerStr n) = true :=
      List.elem_eq_true_of_mem hb
    exact ⟨by rw [checkNode, if_pos hc], strContains_append _ _ _⟩

/-- Witness for C3 at the repository's blocked identifiers (`secrets`,
`password`) in several casings. -/
theorem C3_witness :
    checkNode ⟨["secrets"], ["password"], ["pg_sleep"]⟩
        (mapIdents id (.seq (.tableRef "SECRETS") (.columnRef none "Password"))) =
      checkNode ⟨["secrets"], ["password"], ["pg_sleep"]⟩
        (.seq (.tableRef "SECRETS") (.columnRef none "Password")) ∧
    (checkNode ⟨["secrets"], ["password"], ["pg_sleep"]⟩
      (.subquery (.seq (.tableRef "Secrets") .emptyNode))).isSome = true ∧
    (checkNode ⟨["secrets"], ["password"], ["pg_sleep"]⟩
      (.seq .emptyNode (.columnRef (some "users") "PASSWORD"))).isSome = true ∧
    (checkNode ⟨["secrets"], ["password"], ["pg_sleep"]⟩ (.tableRef "SECRETS") =
        some (.securityViolation
          ("Access to blocked table " ++ lowerStr "SECRETS" ++ " is not allowed")) ∧
      strContains ("Access to blocked table " ++ lowerStr "SECRETS" ++ " is not allowed")
        (lowerStr "SECRETS") = true) ∧
    (checkNode ⟨["secrets"], ["password"], ["pg_sleep"]⟩ (.columnRef none "Password") =
        some (.securityViolation
          ("Access to blocked column " ++ lowerStr "Password" ++ " is not allowed")) ∧
      strContains ("Access to blocked column " ++ lowerStr "Password" ++ " is not allowed")
        (lowerStr "Password") = true) :=
  ⟨C3_case_insensitive_blocking.1 _ id _ (fun _ => rfl),
   C3_case_insensitive_blocking.2.1 _ "SECRETS" _ (by decide) (by decide),
   C3_case_insensitive_blocking.2.2.1 _ "password" _ (by decide) (by decide),
   C3_case_insensitive_blocking.2.2.2.1 _ "SECRETS" (by decide),
   C3_case_insensitive_blocking.2.2.2.2 _ (some "users") "Password" (by decide)⟩

/-! ### Orchestrator and circuit breaker (C1, C4, C5) -/

theorem sleepsOf_nil : sleepsOf [] = [] := rfl

theorem sleepsOf_genCall (p f : Option String) (l : List Event) :
    sleepsOf (.genCall p f :: l) = sleepsOf l := rfl

theorem sleepsOf_execCall (s : String) (l : List Event) :
    sleepsOf (.execCall s :: l) = sleepsOf l := rfl

theorem sleepsOf_sleepFor (d : ℚ) (l : List Event) :
    sleepsOf (.sleepFor d :: l) = d :: sleepsOf l := rfl

theorem genCallsOf_nil : genCallsOf [] = [] := rfl

theorem genCallsOf_genCall (p f : Option String) (l : List Event) :
    genCallsOf (.genCall p f :: l) = (p, f) :: genCallsOf l := rfl

theorem genCallsOf_execCall (s : String) (l : List Event) :
    genCallsOf (.execCall s :: l) = genCallsOf l := rfl

theorem genCallsOf_sleepFor (d : ℚ) (l : List Event) :
    genCallsOf (.sleepFor d :: l) = genCallsOf l := rfl

theorem retryLoop_never_raises (cfg : OrchResilienceConfig) (env : PortEnv)
    (rt : ReturnType) (now : ℚ) :
    ∀ (fuel genIdx execIdx : Nat) (prev fb : Option String) (lastErr : ErrorInfo)
      (b : CircuitBreaker),
      ((retryLoop cfg env rt now fuel genIdx execIdx prev fb lastErr b).1.success = true ∧
        (retryLoop cfg env rt now fuel genIdx execIdx prev fb lastErr b).1.error = none) ∨
      ((retryLoop cfg env rt now fuel genIdx execIdx prev fb lastErr b).1.success = false ∧
        ((retryLoop cfg env rt now fuel genIdx execIdx prev fb lastErr b).1.error).isSome = true) := by
  intro fuel
  induction fuel with
  | zero => intro genIdx execIdx prev fb lastErr b; right; exact ⟨rfl, rfl⟩
  | succ fuel ih =>
    intro genIdx execIdx prev fb lastErr b
    simp only [retryLoop]
    split
    · right; exact ⟨rfl, rfl⟩
    · split
      · right; exact ⟨rfl, rfl⟩
      · split
        · split
          · right; exact ⟨rfl, rfl⟩
          · exact ih _ _ _ _ _ _
        · split
          · left; exact ⟨rfl, rfl⟩
          · split
            · left; exact ⟨rfl, rfl⟩
            · split
              · right; exact ⟨rfl, rfl⟩
              · exact ih _ _ _ _ _ _
            · right; exact ⟨rfl, rfl⟩

/-- C1: `execute_query` never raises; every path produces a response in which
failure is encoded in the `error` field (successful responses carry no error,
failed ones always carry one), and a generator port error in particular is
returned as a failed response with the failure message in `error`. -/
theorem C1_execute_query_never_raises :
    (∀ (cfg : OrchResilienceConfig) (env : PortEnv) (req : OrchQueryRequest)
        (b : CircuitBreaker) (now : ℚ),
      ((executeQuery cfg env req b now).1.success = true ∧
        (executeQuery cfg env req b now).1.error = none) ∨
      ((executeQuery cfg env req b now).1.success = false ∧
        ((executeQuery cfg env req b now).1.error).isSome = true)) ∧
    (∀ (cfg : OrchResilienceConfig) (env : PortEnv) (req : OrchQueryRequest)
        (b : CircuitBreaker) (now : ℚ) (db m : String),
      resolveDatabase env req = .ok db → env.schema db = some () →
      b.state = .closed → env.gen 0 = .failure m →
      (executeQuery cfg env req b now).1.success = false ∧
      (executeQuery cfg env req b now).1.error = some ⟨.llmError, m⟩) := by
  constructor
  · intro cfg env req b now
    unfold executeQuery
    split
    · right; exact ⟨rfl, rfl⟩
    · split
      · right; exact ⟨rfl, rfl⟩
      · exact retryLoop_never_raises cfg env req.returnType now _ _ _ _ _ _ _
  · intro cfg env req b now db m hres hschema hb hgen
    obtain ⟨st, fc, oa⟩ := b
    cases hb
    simp [executeQuery, hres, hschema, retryLoop, cbAllow, hgen, failResponse]

/-- Witness for C1's second clause: a generator failure at a concrete
environment is encoded in the response's error field. -/
theorem C1_witness :
    (executeQuery ⟨0, 0, 2, 5, 60, false⟩
      ⟨["db"], fun _ => some (), fun _ => .failure "boom", fun _ => none,
        fun _ => .ok 0, .ok ()⟩
      ⟨"q", some "db", .sql⟩ ⟨.closed, 0, 0⟩ 0).1.success = false ∧
    (executeQuery ⟨0, 0, 2, 5, 60, false⟩
      ⟨["db"], fun _ => some (), fun _ => .failure "boom", fun _ => none,
        fun _ => .ok 0, .ok ()⟩
      ⟨"q", some "db", .sql⟩ ⟨.closed, 0, 0⟩ 0).1.error = some ⟨.llmError, "boom"⟩ :=
  C1_execute_query_never_raises.2 _ _ _ _ 0 "db" "boom" rfl rfl rfl rfl

/-- C4: the breaker trips from CLOSED to OPEN exactly when the consecutive
failure count reaches the threshold, and while it is OPEN within the recovery
timeout, `execute_query` (on a request that resolves its database and schema)
fails fast with an error message containing "circuit breaker" and performs no
generator call. -/
theorem C4_circuit_breaker :
    (∀ (cfg : OrchResilienceConfig) (now : ℚ) (b : CircuitBreaker),
      b.state = .closed →
      ((cbRecordFailure cfg now b).state = .opened ↔
        cfg.circuitBreakerThreshold ≤ b.failureCount + 1)) ∧
    (∀ (cfg : OrchResilienceConfig) (env : PortEnv) (req : OrchQueryRequest)
        (b : CircuitBreaker) (now : ℚ) (db : String),
      resolveDatabase env req = .ok db → env.schema db = some () →
      b.state = .opened → now - b.openedAt < cfg.circuitBreakerTimeout →
      (executeQuery cfg env req b now).1.success = false ∧
      (∃ e, (executeQuery cfg env req b now).1.error = some e ∧
        strContains e.message "circuit breaker" = true) ∧
      genCallsOf (executeQuery cfg env req b now).2.2 = []) := by
  constructor
  · intro cfg now b hb
    obtain ⟨st, fc, oa⟩ := b
    cases hb
    simp only [cbRecordFailure]
    split
    · simpa using ‹cfg.circuitBreakerThreshold ≤ fc + 1›
    · simp only
      constructor
      · intro h; exact absurd h (by simp)
      · intro h; exact absurd h ‹¬ cfg.circuitBreakerThreshold ≤ fc + 1›
  · intro cfg env req b now db hres hschema hb htime
    obtain ⟨st, fc, oa⟩ := b
    cases hb
    have hnot : ¬ cfg.circuitBreakerTimeout ≤ now - oa := not_le.mpr htime
    refine ⟨?_, ⟨⟨.circuitBreakerOpen, "circuit breaker is open - LLM calls are failing fast"⟩,
      ?_, by decide⟩, ?_⟩ <;>
      simp [executeQuery, hres, hschema, retryLoop, cbAllow, hnot, failResponse, genCallsOf_nil]

/-- Witness for C4 at concrete configuration, breaker state and clock. -/
theorem C4_witness :
    ((cbRecordFailure ⟨0, 0, 2, 2, 60, false⟩ 0 ⟨.closed, 1, 0⟩).state = .opened ↔
      (⟨0, 0, 2, 2, 60, false⟩ : OrchResilienceConfig).circuitBreakerThreshold ≤
        (⟨.closed, 1, 0⟩ : CircuitBreaker).failureCount + 1) ∧
    ((executeQuery ⟨0, 0, 2, 2, 60, false⟩
        ⟨["db"], fun _ => some (), fun _ => .ok "SELECT 1;", fun _ => none,
          fun _ => .ok 0, .ok ()⟩
        ⟨"q", some "db", .sql⟩ ⟨.opened, 2, 0⟩ 5).1.success = false ∧
      (∃ e, (executeQuery ⟨0, 0, 2, 2, 60, false⟩
          ⟨["db"], fun _ => some (), fun _ => .ok "SELECT 1;", fun _ => none,
            fun _ => .ok 0, .ok ()⟩
          ⟨"q", some "db", .sql⟩ ⟨.opened, 2, 0⟩ 5).1.error = some e ∧
        strContains e.message "circuit breaker" = true) ∧
      genCallsOf (executeQuery ⟨0, 0, 2, 2, 60, false⟩
          ⟨["db"], fun _ => some (), fun _ => .ok "SELECT 1;", fun _ => none,
            fun _ => .ok 0, .ok ()⟩
          ⟨"q", some "db", .sql⟩ ⟨.opened, 2, 0⟩ 5).2.2 = []) :=
  ⟨C4_circuit_breaker.1 _ 0 _ rfl,
   C4_circuit_breaker.2 _ _ _ _ 5 "db" rfl rfl rfl (by norm_num)⟩

theorem retryLoop_sleeps (cfg : OrchResilienceConfig) (env : PortEnv)
    (rt : ReturnType) (now : ℚ) :
    ∀ (fuel genIdx execIdx : Nat) (prev fb : Option String) (lastErr : ErrorInfo)
      (b : CircuitBreaker),
      ∃ j, sleepsOf (retryLoop cfg env rt now fuel genIdx execIdx prev fb lastErr b).2.2 =
        (List.range j).map (fun i => cfg.retryDelay * cfg.backoffFactor ^ (genIdx + i)) := by
  intro fuel
  induction fuel with
  | zero => intro genIdx execIdx prev fb lastErr b; exact ⟨0, rfl⟩
  | succ fuel ih =>
    intro genIdx execIdx prev fb lastErr b
    simp only [retryLoop]
    split
    · exact ⟨0, rfl⟩
    · split
      · exact ⟨0, rfl⟩
      · split
        · split
          · exact ⟨0, rfl⟩
          · obtain ⟨j, hj⟩ := ih (genIdx + 1) execIdx _ _ _ _
            refine ⟨j + 1, ?_⟩
            rw [sleepsOf_genCall, sleepsOf_sleepFor, hj, List.range_succ_eq_map,
              List.map_cons, List.map_map]
            have hexp : ∀ i : Nat, genIdx + 1 + i = genIdx + (i + 1) := fun i => by omega
            simp [Function.comp, hexp]
        · split
          · exact ⟨0, rfl⟩
          · split
            · exact ⟨0, rfl⟩
            · split
              · exact ⟨0, rfl⟩
              · obtain ⟨j, hj⟩ := ih (genIdx + 1) (execIdx + 1) _ _ _ _
                refine ⟨j + 1, ?_⟩
                rw [sleepsOf_genCall, sleepsOf_execCall, sleepsOf_sleepFor, hj,
                  List.range_succ_eq_map, List.map_cons, List.map_map]
                have hexp : ∀ i : Nat, genIdx + 1 + i = genIdx + (i + 1) := fun i => by omega
                simp [Function.comp, hexp]
            · exact ⟨0, rfl⟩

/-- C5: retryable validation rejections feed the offending SQL and the error
message into the next `generate` call, the k-th backoff sleep (k starting at
0) is `retry_delay · backoff_factor ^ k`, and with `max_retries = 2`,
`retry_delay = 0.1`, `backoff_factor = 2.0` and a generator whose first SQL
fails validation and whose second passes, the call succeeds after exactly two
generator invocations with at least 0.1 of total backoff delay. -/
theorem C5_retry_with_feedback :
    (∀ (cfg : OrchResilienceConfig) (env : PortEnv) (req : OrchQueryRequest)
        (b : CircuitBreaker) (now : ℚ),
      ∃ j, sleepsOf (executeQuery cfg env req b now).2.2 =
        (List.range j).map (fun i => cfg.retryDelay * cfg.backoffFactor ^ i)) ∧
    (∀ (cfg : OrchResilienceConfig) (env : PortEnv) (req : OrchQueryRequest)
        (b : CircuitBreaker) (now : ℚ) (db sql0 sql1 m0 : String),
      cfg.maxRetries = 2 → cfg.retryDelay = 1/10 → cfg.backoffFactor = 2 →
      resolveDatabase env req = .ok db → env.schema db = some () →
      req.returnType = .sql → b.state = .closed →
      env.gen 0 = .ok sql0 → env.gen 1 = .ok sql1 →
      env.validate sql0 = some (.securityViolation m0) → env.validate sql1 = none →
      (executeQuery cfg env req b now).1.success = true ∧
      (executeQuery cfg env req b now).1.generatedSql = some sql1 ∧
      genCallsOf (executeQuery cfg env req b now).2.2 =
        [(none, none), (some sql0, some m0)] ∧
      sleepsOf (executeQuery cfg env req b now).2.2 = [1/10] ∧
      (1 : ℚ)/10 ≤ (sleepsOf (executeQuery cfg env req b now).2.2).sum) := by
  constructor
  · intro cfg env req b now
    unfold executeQuery
    split
    · exact ⟨0, rfl⟩
    · split
      · exact ⟨0, rfl⟩
      · obtain ⟨j, hj⟩ := retryLoop_sleeps cfg env req.returnType now
          (cfg.maxRetries + 1) 0 0 none none ⟨.unknownError, "no attempt was executed"⟩ _
        exact ⟨j, by simpa using hj⟩
  · intro cfg env req b now db sql0 sql1 m0 hmr hrd hbf hres hschema hrt hb hg0 hg1 hv0 hv1
    obtain ⟨st, fc, oa⟩ := b
    cases hb
    have key : executeQuery cfg env req ⟨.closed, fc, oa⟩ now =
        (⟨true, some sql1, none, none, 2, none⟩, ⟨.closed, 0, oa⟩,
          [.genCall none none,
           .sleepFor cfg.retryDelay,
           .genCall (some sql0) (some m0)]) := by
      simp +decide [executeQuery, hres, hschema, hrt, hmr, retryLoop, cbAllow,
        hg0, hv0, hg1, hv1, cbRecordSuccess, failResponse]
    rw [key, hrd]
    refine ⟨rfl, rfl, rfl, ?_, ?_⟩
    · rw [sleepsOf_genCall, sleepsOf_sleepFor, sleepsOf_genCall, sleepsOf_nil]
    · rw [sleepsOf_genCall, sleepsOf_sleepFor, sleepsOf_genCall, sleepsOf_nil]
      norm_num

/-- Witness for C5 at a concrete environment: the generator first emits a
DELETE that the validator rejects, then a SELECT that passes. -/
theorem C5_witness :
    (executeQuery ⟨2, 1/10, 2, 5, 60, false⟩
      ⟨["db"], fun _ => some (),
        fun i => if i = 0 then .ok "DELETE FROM users;" else .ok "SELECT * FROM users;",
        fun s => if s = "DELETE FROM users;" then
            some (.securityViolation "DELETE statements are not allowed")
          else none,
        fun _ => .ok 1, .ok ()⟩
      ⟨"Get all users", some "db", .sql⟩ ⟨.closed, 0, 0⟩ 0).1.success = true ∧
    (executeQuery ⟨2, 1/10, 2, 5, 60, false⟩
      ⟨["db"], fun _ => some (),
        fun i => if i = 0 then .ok "DELETE FROM users;" else .ok "SELECT * FROM users;",
        fun s => if s = "DELETE FROM users;" then
            some (.securityViolation "DELETE statements are not allowed")
          else none,
        fun _ => .ok 1, .ok ()⟩
      ⟨"Get all users", some "db", .sql⟩ ⟨.closed, 0, 0⟩ 0).1.generatedSql =
        some "SELECT * FROM users;" ∧
    genCallsOf (executeQuery ⟨2, 1/10, 2, 5, 60, false⟩
      ⟨["db"], fun _ => some (),
        fun i => if i = 0 then .ok "DELETE FROM users;" else .ok "SELECT * FROM users;",
        fun s => if s = "DELETE FROM users;" then
            some (.securityViolation "DELETE statements are not allowed")
          else none,
        fun _ => .ok 1, .ok ()⟩
      ⟨"Get all users", some "db", .sql⟩ ⟨.closed, 0, 0⟩ 0).2.2 =
        [(none, none), (some "DELETE FROM users;",
          some "DELETE statements are not allowed")] ∧
    sleepsOf (executeQuery ⟨2, 1/10, 2, 5, 60, false⟩
      ⟨["db"], fun _ => some (),
        fun i => if i = 0 then .ok "DELETE FROM users;" else .ok "SELECT * FROM users;",
        fun s => if s = "DELETE FROM users;" then
            some (.securityViolation "DELETE statements are not allowed")
          else none,
        fun _ => .ok 1, .ok ()⟩
      ⟨"Get all users", some "db", .sql⟩ ⟨.closed, 0, 0⟩ 0).2.2 = [1/10] ∧
    (1 : ℚ)/10 ≤ (sleepsOf (executeQuery ⟨2, 1/10, 2, 5, 60, false⟩
      ⟨["db"], fun _ => some (),
        fun i => if i = 0 then .ok "DELETE FROM users;" else .ok "SELECT * FROM users;",
        fun s => if s = "DELETE FROM users;" then
            some (.securityViolation "DELETE statements are not allowed")
          else none,
        fun _ => .ok 1, .ok ()⟩
      ⟨"Get all users", some "db", .sql⟩ ⟨.closed, 0, 0⟩ 0).2.2).sum :=
  C5_retry_with_feedback.2 _ _ _ _ 0 "db" "DELETE FROM users;" "SELECT * FROM users;"
    "DELETE statements are not allowed" rfl rfl rfl rfl rfl rfl rfl
    (by norm_num) (by norm_num) (by simp) (by simp)

end PgMcp
